import Mathlib

/-!
Shallow embedding of the AlertX-Backend HTTP service (`src/api_server.py`),
faithful to the source. The external YOLO detection capability, the werkzeug
sanitizer and the uuid draw are opaque parameters; every piece of control flow
and data construction below mirrors a line of `api_server.py`.
-/

namespace AlertX

/-- Embeds `posixpath.isabs`-style test used inside `os.path.join`:
a path is absolute when it starts with a separator. -/
def isAbs (s : String) : Bool :=
  match s.data with
  | '/' :: _ => true
  | _ => false

/-- Embeds `os.path.join(a, b)` (POSIX semantics, two arguments):
an absolute second argument replaces the first; otherwise the parts are
joined with a single separator (no separator inserted after an empty or
separator-terminated first argument). -/
def osJoin (a b : String) : String :=
  if isAbs b then b
  else if a = "" then b
  else if a.data.getLast? = some '/' then ⟨a.data ++ b.data⟩
  else ⟨a.data ++ '/' :: b.data⟩

/-- Splits a character list on the separator `/`, Python-`str.split` style:
the result is always nonempty and empty components witness leading,
trailing or doubled separators. -/
def splitSlash : List Char → List (List Char)
  | [] => [[]]
  | '/' :: rest => [] :: splitSlash rest
  | c :: rest =>
    match splitSlash rest with
    | [] => [[c]]
    | comp :: comps => (c :: comp) :: comps

/-- One step of lexical path normalisation: skip empty and `.` components,
let `..` pop the last surviving component, keep everything else. -/
def normStep (acc : List (List Char)) (c : List Char) : List (List Char) :=
  if c = [] ∨ c = ['.'] then acc
  else if c = ['.', '.'] then acc.dropLast
  else acc ++ [c]

/-- Lexical normalisation of a component list (the `..`-resolution a kernel
performs when the path is opened). -/
def normalizeComponents (parts : List (List Char)) : List (List Char) :=
  parts.foldl normStep []

/-- The resolved form of `p` stays inside the directory `root`: after
splitting on separators and resolving `.` and `..`, the first component is
still `root`. -/
def withinRoot (root p : String) : Prop :=
  (normalizeComponents (splitSlash p.data)).head? = some root.data

instance (root p : String) : Decidable (withinRoot root p) := by
  unfold withinRoot; infer_instance

/-- Embeds `os.path.basename`: the part after the last separator. -/
def basename (s : String) : String :=
  ⟨(s.data.reverse.takeWhile (fun c => c ≠ '/')).reverse⟩

/-- Embeds `os.path.splitext` on a basename: split at the last dot, unless
every character before that dot is itself a dot (a leading-dot name such as
`.bashrc` has no extension). -/
def splitext (s : String) : String × String :=
  match s.data.reverse.dropWhile (fun c => c ≠ '.') with
  | [] => (s, "")
  | _ :: nameRev =>
    if nameRev.any (fun c => c ≠ '.') then
      (⟨nameRev.reverse⟩, ⟨'.' :: (s.data.reverse.takeWhile (fun c => c ≠ '.')).reverse⟩)
    else (s, "")

/-- Embeds Python `filename.rsplit(chr(46), 1)[1]` guarded by the
containment test: `none` when the name has no dot, otherwise the substring
after the last dot. -/
def extAfterLastDot (s : String) : Option String :=
  match s.data.reverse.dropWhile (fun c => c ≠ '.') with
  | [] => none
  | _ :: _ => some ⟨(s.data.reverse.takeWhile (fun c => c ≠ '.')).reverse⟩

-- Constants from api_server.py lines 22-31.

def UPLOAD_FOLDER : String := "uploads"

def PROCESSED_FOLDER : String := "processed"

def ALLOWED_IMAGE_EXTENSIONS : List String := ["png", "jpg", "jpeg", "bmp"]

def ALLOWED_VIDEO_EXTENSIONS : List String := ["mp4", "avi", "mov", "mkv"]

/-- Embeds Python `str.lower` on the ASCII range, the only range the
extension allow-lists exercise. -/
def strLower (s : String) : String :=
  ⟨s.data.map Char.toLower⟩

/-- Embeds `allowed_file` (api_server.py lines 35-37): the name contains a
dot and the lowercased text after the last dot is in the allow-list. -/
def allowed_file (filename : String) (allowed_extensions : List String) : Bool :=
  match extAfterLastDot filename with
  | none => false
  | some e => allowed_extensions.contains (strLower e)

-- Detection data model (api_server.py lines 52-66).

/-- An axis-aligned bounding box in pixel coordinates. -/
structure BBox where
  x1 : ℚ
  y1 : ℚ
  x2 : ℚ
  y2 : ℚ
deriving DecidableEq

/-- One raw box as returned by the external model: coordinates, confidence
score (`box.conf`) and class id (`box.cls`). -/
structure Box where
  xyxy : BBox
  conf : ℚ
  cls : Int
deriving DecidableEq

/-- One serialized detection entry built by `process_image`
(api_server.py lines 56-66). -/
structure Detection where
  bbox : BBox
  confidence : ℚ
  class_id : Int
  class_name : String
deriving DecidableEq

/-- Builds the detection dictionary from a raw box, including the class
label rule of api_server.py line 65. -/
def mkDetection (b : Box) : Detection :=
  { bbox := b.xyxy
    confidence := b.conf
    class_id := b.cls
    class_name := if b.cls = 0 then "Human" else "Class " ++ toString b.cls }

/-- Opaque frame identifier for decoded video frames. -/
abbrev Frame := Nat

/-- The loaded external YOLO model (`load_model` in inference.py returns it,
or Python `None` on failure — hence `Option Model` everywhere below).
The callable accepts either a filesystem path (image case, line 44) or a
decoded frame (video case, line 109), each with a confidence threshold, and
yields the filtered box list of `results[0].boxes`. -/
structure Model where
  onPath : String → ℚ → List Box
  onFrame : Frame → ℚ → List Box

/-- The state `cv2.VideoCapture(filepath)` yields: whether the stream
opened, and the finite frame sequence successive `cap.read()` calls
deliver in capture order. -/
structure Capture where
  opened : Bool
  frames : List Frame

/-- Derives the processed-artifact name of api_server.py lines 69-71 and
93-95: fixed suffix inserted before the extension of the basename. -/
def processedName (filepath : String) : String :=
  let ne := splitext (basename filepath)
  ne.1 ++ "_detected" ++ ne.2

/-- Result dictionary of `process_image` (api_server.py lines 75-79). -/
structure ImageResult where
  detections : List Detection
  processed_image : String
  count : Nat
deriving DecidableEq

/-- Result dictionary of `process_video` (api_server.py lines 125-130). -/
structure VideoResult where
  processed_video : String
  total_frames : Nat
  total_detections : Nat
  avg_detections_per_frame : ℚ
deriving DecidableEq

/-- Embeds `process_image` (api_server.py lines 39-79). The second
component counts invocations of the external model, so that "checked
before any detection call" is visible in the embedding. A missing model
raises `Exception` with the fixed message of line 42, embedded as
`Except.error`. -/
def process_image (model : Option Model) (filepath : String)
    (confidence_threshold : ℚ) : Except String ImageResult × Nat :=
  match model with
  | none => (Except.error "Model not loaded", 0)
  | some m =>
    let boxes := m.onPath filepath confidence_threshold
    let detections := boxes.map mkDetection
    (Except.ok
      { detections := detections
        processed_image := processedName filepath
        count := detections.length }, 1)

/-- Embeds `process_video` (api_server.py lines 81-130). The read loop
(lines 104-120) consumes the capture's frames in order while the stream is
opened, invoking the model once per frame and accumulating `len(boxes)`;
an unopened stream yields an empty read sequence. The second component
again counts model invocations. -/
def process_video (model : Option Model) (filepath : String) (cap : Capture)
    (confidence_threshold : ℚ) : Except String VideoResult × Nat :=
  match model with
  | none => (Except.error "Model not loaded", 0)
  | some m =>
    let framesRead := if cap.opened then cap.frames else []
    let frame_count := framesRead.length
    let total_detections :=
      (framesRead.map (fun f => (m.onFrame f confidence_threshold).length)).sum
    (Except.ok
      { processed_video := processedName filepath
        total_frames := frame_count
        total_detections := total_detections
        avg_detections_per_frame :=
          if 0 < frame_count then (total_detections : ℚ) / (frame_count : ℚ) else 0 },
      frame_count)

-- HTTP surface (api_server.py lines 137-219).

/-- The parts of an upload request the handler inspects: whether the
multipart field `file` is present, and the client-supplied filename. -/
structure UploadRequest where
  hasFileField : Bool
  filename : String

/-- Observable outcome of the upload endpoint: HTTP status, and the unique
name under which the content was persisted (`none` when nothing was
written to the store). -/
structure UploadResponse where
  status : Nat
  savedFilename : Option String
deriving DecidableEq

/-- Embeds api_server.py lines 156-158: the werkzeug-sanitized name, with
the fixed fallback when sanitization leaves nothing. -/
def secured_or_default (secure : String → String) (filename : String) : String :=
  let s := secure filename
  if s = "" then "uploaded_file" else s

/-- Embeds api_server.py lines 160-161: splitext the sanitized name and
interleave the random hex draw between stem and extension. -/
def mkUniqueFilename (secured : String) (uuidHex : String) : String :=
  let ne := splitext secured
  ne.1 ++ "_" ++ uuidHex ++ ne.2

/-- Embeds the `upload_file` handler (api_server.py lines 137-174).
`secure` is werkzeug's `secure_filename` and `uuidHex` the value of
`uuid.uuid4().hex` drawn for this request, both external to the repo. -/
def upload_file (secure : String → String) (uuidHex : String)
    (req : UploadRequest) : UploadResponse :=
  if !req.hasFileField then ⟨400, none⟩
  else if req.filename = "" then ⟨400, none⟩
  else
    let is_image := allowed_file req.filename ALLOWED_IMAGE_EXTENSIONS
    let is_video := allowed_file req.filename ALLOWED_VIDEO_EXTENSIONS
    if !(is_image || is_video) then ⟨400, none⟩
    else
      ⟨200, some (mkUniqueFilename (secured_or_default secure req.filename) uuidHex)⟩

/-- JSON body of a process request: both fields optional, matching
`data.get` access in the handler. -/
structure ProcessData where
  filename : Option String
  confidence_threshold : Option ℚ

/-- A pipeline dispatch recorded by the handler embedding, with the path
and threshold it was handed. -/
inductive PipelineCall
  | image (path : String) (t : ℚ)
  | video (path : String) (t : ℚ)
deriving DecidableEq

/-- The threshold a pipeline call was handed. -/
def PipelineCall.threshold : PipelineCall → ℚ
  | image _ t => t
  | video _ t => t

/-- Body of a process response: a pipeline result, an error message
(exception text rendered by the handler), or nothing. -/
inductive ProcessBody
  | img (r : ImageResult)
  | vid (r : VideoResult)
  | err (msg : String)
  | empty
deriving DecidableEq

/-- Observable outcome of the process endpoint: status, body, which
pipelines were dispatched to, and how many external detection calls were
made while handling the request. -/
structure ProcessResponse where
  status : Nat
  body : ProcessBody
  pipelineCalls : List PipelineCall
  detectCalls : Nat
deriving DecidableEq

/-- Embeds the `process_file` handler (api_server.py lines 176-214).
`fs` answers `os.path.exists` and `captureOf` is the decoder environment
answering `cv2.VideoCapture(filepath)`; `data` is the parsed JSON body
(`none` for an absent or falsy body). -/
def process_file (model : Option Model) (fs : String → Bool)
    (captureOf : String → Capture) (data : Option ProcessData) : ProcessResponse :=
  match data with
  | none => ⟨400, .empty, [], 0⟩
  | some d =>
    match d.filename with
    | none => ⟨400, .empty, [], 0⟩
    | some filename =>
      let confidence_threshold := d.confidence_threshold.getD (1/2)
      let filepath := osJoin UPLOAD_FOLDER filename
      if !fs filepath then ⟨404, .empty, [], 0⟩
      else
        let is_image := allowed_file filename ALLOWED_IMAGE_EXTENSIONS
        let is_video := allowed_file filename ALLOWED_VIDEO_EXTENSIONS
        if is_image then
          match process_image model filepath confidence_threshold with
          | (Except.ok r, n) =>
            ⟨200, .img r, [.image filepath confidence_threshold], n⟩
          | (Except.error e, n) =>
            ⟨500, .err e, [.image filepath confidence_threshold], n⟩
        else if is_video then
          match process_video model filepath (captureOf filepath) confidence_threshold with
          | (Except.ok r, n) =>
            ⟨200, .vid r, [.video filepath confidence_threshold], n⟩
          | (Except.error e, n) =>
            ⟨500, .err e, [.video filepath confidence_threshold], n⟩
        else ⟨400, .empty, [], 0⟩

-- Concrete instances used to evaluate the embedding at specific inputs.

/-- A loaded model that reports no detections anywhere. -/
def trivialModel : Model := ⟨fun _ _ => [], fun _ _ => []⟩

/-- A capture whose underlying stream failed to open. -/
def closedCapture : Capture := ⟨false, []⟩

/-- A capture that opened and delivers two frames. -/
def twoFrameCapture : Capture := ⟨true, [0, 1]⟩

/-- A box with full-image coordinates, confidence 9/10 and class id 0. -/
def humanBox : Box := ⟨⟨0, 0, 1, 1⟩, 9/10, 0⟩

/-- A loaded model that reports `humanBox` once on every path and frame. -/
def humanModel : Model := ⟨fun _ _ => [humanBox], fun _ _ => [humanBox]⟩

end AlertX

namespace AlertX

/-- C4: an upload request with the file field missing, an empty filename,
or an extension in neither allow-list gets status 400 and persists
nothing. -/
theorem upload_rejects_invalid (secure : String → String) (uuidHex : String)
    (req : UploadRequest)
    (h : req.hasFileField = false ∨ req.filename = "" ∨
      (allowed_file req.filename ALLOWED_IMAGE_EXTENSIONS = false ∧
       allowed_file req.filename ALLOWED_VIDEO_EXTENSIONS = false)) :
    upload_file secure uuidHex req = ⟨400, none⟩ := by
  unfold upload_file
  rcases h with h | h | ⟨h1, h2⟩
  · simp [h]
  · simp [h]
  · simp [h1, h2]

/-- Witness for C4 at a concrete disallowed extension. -/
theorem upload_rejects_invalid_witness :
    (allowed_file "x.txt" ALLOWED_IMAGE_EXTENSIONS = false ∧
     allowed_file "x.txt" ALLOWED_VIDEO_EXTENSIONS = false) ∧
    upload_file id "0123456789abcdef0123456789abcdef" ⟨true, "x.txt"⟩ = ⟨400, none⟩ :=
  ⟨⟨rfl, rfl⟩,
    upload_rejects_invalid id "0123456789abcdef0123456789abcdef" ⟨true, "x.txt"⟩
      (Or.inr (Or.inr ⟨rfl, rfl⟩))⟩

/-- C5: a process request naming a file that does not exist under the
upload root gets 404, with no pipeline dispatched and no detection call
made. -/
theorem process_missing_file_404 (model : Option Model) (fs : String → Bool)
    (captureOf : String → Capture) (fn : String) (t? : Option ℚ)
    (h : fs (osJoin UPLOAD_FOLDER fn) = false) :
    process_file model fs captureOf (some ⟨some fn, t?⟩) = ⟨404, .empty, [], 0⟩ := by
  simp [process_file, h]

/-- Witness for C5 on an empty filesystem. -/
theorem process_missing_file_404_witness :
    ((fun _ : String => false) (osJoin UPLOAD_FOLDER "x.jpg") = false) ∧
    process_file (some trivialModel) (fun _ => false) (fun _ => closedCapture)
        (some ⟨some "x.jpg", none⟩) = ⟨404, .empty, [], 0⟩ :=
  ⟨rfl,
    process_missing_file_404 (some trivialModel) (fun _ => false)
      (fun _ => closedCapture) "x.jpg" none rfl⟩

/-- C3: when the model failed to load at startup, every process request
that reaches a pipeline (existing file, image or video extension) gets
status 500 with the fixed message, and no detection call is made. -/
theorem model_unavailable_500 (fs : String → Bool) (captureOf : String → Capture)
    (fn : String) (t? : Option ℚ)
    (hex : fs (osJoin UPLOAD_FOLDER fn) = true)
    (hall : allowed_file fn ALLOWED_IMAGE_EXTENSIONS = true ∨
            allowed_file fn ALLOWED_VIDEO_EXTENSIONS = true) :
    (process_file none fs captureOf (some ⟨some fn, t?⟩)).status = 500 ∧
    (process_file none fs captureOf (some ⟨some fn, t?⟩)).body = .err "Model not loaded" ∧
    (process_file none fs captureOf (some ⟨some fn, t?⟩)).detectCalls = 0 := by
  by_cases himg : allowed_file fn ALLOWED_IMAGE_EXTENSIONS = true
  · simp [process_file, process_image, hex, himg]
  · have hvid : allowed_file fn ALLOWED_VIDEO_EXTENSIONS = true := by
      rcases hall with hall | hall
      · exact absurd hall himg
      · exact hall
    simp [process_file, process_image, process_video, hex, himg, hvid]

/-- Witness for C3 at a concrete image request. -/
theorem model_unavailable_500_witness :
    ((fun _ : String => true) (osJoin UPLOAD_FOLDER "x.jpg") = true ∧
     allowed_file "x.jpg" ALLOWED_IMAGE_EXTENSIONS = true) ∧
    ((process_file none (fun _ => true) (fun _ => closedCapture)
        (some ⟨some "x.jpg", none⟩)).status = 500 ∧
     (process_file none (fun _ => true) (fun _ => closedCapture)
        (some ⟨some "x.jpg", none⟩)).body = .err "Model not loaded" ∧
     (process_file none (fun _ => true) (fun _ => closedCapture)
        (some ⟨some "x.jpg", none⟩)).detectCalls = 0) :=
  ⟨⟨rfl, rfl⟩,
    model_unavailable_500 (fun _ => true) (fun _ => closedCapture) "x.jpg" none
      rfl (Or.inl rfl)⟩

/-- C10: the process endpoint forwards the supplied threshold verbatim to
the dispatched pipeline (0.5 when absent) and answers 200, not 400, for
any threshold value whatsoever. -/
theorem threshold_forwarded (m : Model) (fs : String → Bool)
    (captureOf : String → Capture) (fn : String) (t : ℚ)
    (hex : fs (osJoin UPLOAD_FOLDER fn) = true)
    (hall : allowed_file fn ALLOWED_IMAGE_EXTENSIONS = true ∨
            allowed_file fn ALLOWED_VIDEO_EXTENSIONS = true) :
    ((process_file (some m) fs captureOf
        (some ⟨some fn, some t⟩)).pipelineCalls.map PipelineCall.threshold = [t] ∧
     (process_file (some m) fs captureOf (some ⟨some fn, some t⟩)).status = 200) ∧
    (process_file (some m) fs captureOf
        (some ⟨some fn, none⟩)).pipelineCalls.map PipelineCall.threshold = [1/2] := by
  by_cases himg : allowed_file fn ALLOWED_IMAGE_EXTENSIONS = true
  · simp [process_file, process_image, hex, himg, PipelineCall.threshold]
  · have hvid : allowed_file fn ALLOWED_VIDEO_EXTENSIONS = true := by
      rcases hall with hall | hall
      · exact absurd hall himg
      · exact hall
    simp [process_file, process_image, process_video, hex, himg, hvid,
      PipelineCall.threshold]

/-- Witness for C10 with the out-of-range threshold 7. -/
theorem threshold_forwarded_witness :
    ((fun _ : String => true) (osJoin UPLOAD_FOLDER "x.jpg") = true ∧
     allowed_file "x.jpg" ALLOWED_IMAGE_EXTENSIONS = true) ∧
    (((process_file (some trivialModel) (fun _ => true) (fun _ => closedCapture)
        (some ⟨some "x.jpg", some 7⟩)).pipelineCalls.map PipelineCall.threshold = [7] ∧
      (process_file (some trivialModel) (fun _ => true) (fun _ => closedCapture)
        (some ⟨some "x.jpg", some 7⟩)).status = 200) ∧
     (process_file (some trivialModel) (fun _ => true) (fun _ => closedCapture)
        (some ⟨some "x.jpg", none⟩)).pipelineCalls.map PipelineCall.threshold = [1/2]) :=
  ⟨⟨rfl, rfl⟩,
    threshold_forwarded trivialModel (fun _ => true) (fun _ => closedCapture)
      "x.jpg" 7 rfl (Or.inl rfl)⟩

/-- C6: if the external capability filters its boxes to confidence at
least the threshold, then every detection in a successful ImageResult has
confidence at least the threshold. -/
theorem detections_above_threshold (m : Model) (fp : String) (t : ℚ)
    (r : ImageResult)
    (hfilter : ∀ b ∈ m.onPath fp t, t ≤ b.conf)
    (h : (process_image (some m) fp t).1 = Except.ok r) :
    ∀ d ∈ r.detections, t ≤ d.confidence := by
  simp only [process_image, Except.ok.injEq] at h
  subst h
  intro d hd
  simp only [List.mem_map] at hd
  obtain ⟨b, hb, rfl⟩ := hd
  exact hfilter b hb

/-- Witness for C6 at threshold 9/10 on a one-box model. -/
theorem detections_above_threshold_witness :
    ((∀ b ∈ humanModel.onPath "uploads/a.jpg" (9/10), (9/10 : ℚ) ≤ b.conf) ∧
     (process_image (some humanModel) "uploads/a.jpg" (9/10)).1 =
       Except.ok ⟨[mkDetection humanBox], "a_detected.jpg", 1⟩) ∧
    ∀ d ∈ (ImageResult.mk [mkDetection humanBox] "a_detected.jpg" 1).detections,
      (9/10 : ℚ) ≤ d.confidence :=
  ⟨⟨fun b hb => by
      simp only [humanModel, List.mem_singleton] at hb
      subst hb
      exact le_refl _, rfl⟩,
    detections_above_threshold humanModel "uploads/a.jpg" (9/10)
      ⟨[mkDetection humanBox], "a_detected.jpg", 1⟩
      (fun b hb => by
        simp only [humanModel, List.mem_singleton] at hb
        subst hb
        exact le_refl _)
      rfl⟩

/-- C7: in every successful VideoResult the average is the guarded
quotient: 0 when no frame was read, total detections over total frames
otherwise. -/
theorem avg_detections_guarded (m : Model) (fp : String) (cap : Capture)
    (t : ℚ) (r : VideoResult)
    (h : (process_video (some m) fp cap t).1 = Except.ok r) :
    (r.total_frames = 0 → r.avg_detections_per_frame = 0) ∧
    (0 < r.total_frames →
      r.avg_detections_per_frame =
        (r.total_detections : ℚ) / (r.total_frames : ℚ)) := by
  simp only [process_video, Except.ok.injEq] at h
  subst h
  constructor
  · intro h0
    simp only at h0
    simp [h0]
  · intro hpos
    simp only at hpos
    simp [if_pos hpos]

/-- Witness for C7 on a two-frame capture with one detection per frame. -/
theorem avg_detections_guarded_witness :
    ((process_video (some humanModel) "uploads/v.mp4" twoFrameCapture (1/2)).1 =
      Except.ok ⟨"v_detected.mp4", 2, 2,
        if 0 < 2 then ((2 : ℕ) : ℚ) / ((2 : ℕ) : ℚ) else 0⟩) ∧
    ((VideoResult.mk "v_detected.mp4" 2 2
        (if 0 < 2 then ((2 : ℕ) : ℚ) / ((2 : ℕ) : ℚ) else 0)).total_frames = 0 →
      (VideoResult.mk "v_detected.mp4" 2 2
        (if 0 < 2 then ((2 : ℕ) : ℚ) / ((2 : ℕ) : ℚ) else 0)).avg_detections_per_frame = 0) ∧
    (0 < (VideoResult.mk "v_detected.mp4" 2 2
        (if 0 < 2 then ((2 : ℕ) : ℚ) / ((2 : ℕ) : ℚ) else 0)).total_frames →
      (VideoResult.mk "v_detected.mp4" 2 2
        (if 0 < 2 then ((2 : ℕ) : ℚ) / ((2 : ℕ) : ℚ) else 0)).avg_detections_per_frame =
        ((VideoResult.mk "v_detected.mp4" 2 2
          (if 0 < 2 then ((2 : ℕ) : ℚ) / ((2 : ℕ) : ℚ) else 0)).total_detections : ℚ) /
        ((VideoResult.mk "v_detected.mp4" 2 2
          (if 0 < 2 then ((2 : ℕ) : ℚ) / ((2 : ℕ) : ℚ) else 0)).total_frames : ℚ)) :=
  ⟨rfl,
    avg_detections_guarded humanModel "uploads/v.mp4" twoFrameCapture (1/2)
      ⟨"v_detected.mp4", 2, 2, if 0 < 2 then ((2 : ℕ) : ℚ) / ((2 : ℕ) : ℚ) else 0⟩
      rfl⟩

/-- C9: every box becomes exactly one detection, labelled Human for class
id 0 and with the numeric class id substituted otherwise; no class id is
rejected. -/
theorem class_label_rule (m : Model) (fp : String) (t : ℚ) (r : ImageResult)
    (h : (process_image (some m) fp t).1 = Except.ok r) :
    r.detections.length = (m.onPath fp t).length ∧
    ∀ d ∈ r.detections,
      d.class_name =
        if d.class_id = 0 then "Human" else "Class " ++ toString d.class_id := by
  simp only [process_image, Except.ok.injEq] at h
  subst h
  refine ⟨List.length_map _ _, ?_⟩
  intro d hd
  simp only [List.mem_map] at hd
  obtain ⟨b, _, rfl⟩ := hd
  rfl

/-- Witness for C9 on a two-class model output. -/
theorem class_label_rule_witness :
    ((process_image (some ⟨fun _ _ => [humanBox, ⟨⟨0, 0, 1, 1⟩, 3/4, 5⟩],
        fun _ _ => []⟩) "uploads/a.jpg" (1/2)).1 =
      Except.ok ⟨[mkDetection humanBox, mkDetection ⟨⟨0, 0, 1, 1⟩, 3/4, 5⟩],
        "a_detected.jpg", 2⟩) ∧
    ((ImageResult.mk [mkDetection humanBox, mkDetection ⟨⟨0, 0, 1, 1⟩, 3/4, 5⟩]
        "a_detected.jpg" 2).detections.length =
      ((fun _ _ => [humanBox, ⟨⟨0, 0, 1, 1⟩, 3/4, 5⟩]) "uploads/a.jpg" (1/2) : List Box).length ∧
     ∀ d ∈ (ImageResult.mk [mkDetection humanBox, mkDetection ⟨⟨0, 0, 1, 1⟩, 3/4, 5⟩]
        "a_detected.jpg" 2).detections,
      d.class_name =
        if d.class_id = 0 then "Human" else "Class " ++ toString d.class_id) :=
  ⟨rfl,
    class_label_rule ⟨fun _ _ => [humanBox, ⟨⟨0, 0, 1, 1⟩, 3/4, 5⟩], fun _ _ => []⟩
      "uploads/a.jpg" (1/2)
      ⟨[mkDetection humanBox, mkDetection ⟨⟨0, 0, 1, 1⟩, 3/4, 5⟩], "a_detected.jpg", 2⟩
      rfl⟩

/-- Two drawn names built from the same sanitized stem and extension but
different hex draws differ: list append cancels on both sides. -/
theorem mkUniqueFilename_inj (secured u1 u2 : String) (hne : u1 ≠ u2) :
    mkUniqueFilename secured u1 ≠ mkUniqueFilename secured u2 := by
  intro heq
  apply hne
  unfold mkUniqueFilename at heq
  have hdata := congrArg String.data heq
  simp only [String.data_append, List.append_assoc] at hdata
  have h1 := List.append_cancel_left hdata
  have h2 := List.append_cancel_left h1
  have h3 := List.append_cancel_right h2
  exact String.ext h3

/-- C8: a successful upload persists under the sanitized stem, an
underscore, the request's random hex draw, and the original extension;
two uploads of the same original name with different draws are stored
under different names. -/
theorem upload_unique_filenames (secure : String → String) (u1 u2 : String)
    (req : UploadRequest)
    (hfield : req.hasFileField = true) (hname : req.filename ≠ "")
    (hallow : allowed_file req.filename ALLOWED_IMAGE_EXTENSIONS = true ∨
              allowed_file req.filename ALLOWED_VIDEO_EXTENSIONS = true)
    (hne : u1 ≠ u2) :
    (upload_file secure u1 req).savedFilename =
      some ((splitext (secured_or_default secure req.filename)).1 ++ "_" ++ u1 ++
        (splitext (secured_or_default secure req.filename)).2) ∧
    (upload_file secure u1 req).savedFilename ≠
      (upload_file secure u2 req).savedFilename := by
  have hup : ∀ u, upload_file secure u req =
      ⟨200, some (mkUniqueFilename (secured_or_default secure req.filename) u)⟩ := by
    intro u
    unfold upload_file
    rcases hallow with h | h <;> simp [hfield, hname, h]
  refine ⟨by rw [hup u1]; rfl, ?_⟩
  rw [hup u1, hup u2]
  simp only [ne_eq, Option.some.injEq]
  exact mkUniqueFilename_inj (secured_or_default secure req.filename) u1 u2 hne

/-- Witness for C8: two uploads of `a.jpg` with distinct 32-hex draws. -/
theorem upload_unique_filenames_witness :
    ((UploadRequest.mk true "a.jpg").hasFileField = true ∧
     (UploadRequest.mk true "a.jpg").filename ≠ "" ∧
     allowed_file "a.jpg" ALLOWED_IMAGE_EXTENSIONS = true ∧
     ("00000000000000000000000000000000" : String) ≠
       "ffffffffffffffffffffffffffffffff") ∧
    ((upload_file id "00000000000000000000000000000000" ⟨true, "a.jpg"⟩).savedFilename =
      some ((splitext (secured_or_default id "a.jpg")).1 ++ "_" ++
        "00000000000000000000000000000000" ++ (splitext (secured_or_default id "a.jpg")).2) ∧
     (upload_file id "00000000000000000000000000000000" ⟨true, "a.jpg"⟩).savedFilename ≠
       (upload_file id "ffffffffffffffffffffffffffffffff" ⟨true, "a.jpg"⟩).savedFilename) :=
  ⟨⟨rfl, by decide, rfl, by decide⟩,
    upload_unique_filenames id "00000000000000000000000000000000"
      "ffffffffffffffffffffffffffffffff" ⟨true, "a.jpg"⟩ rfl (by decide)
      (Or.inl rfl) (by decide)⟩

/-- Splitting off the known root prefix of a joined path. -/
theorem splitSlash_append_root (l : List Char) :
    splitSlash ("uploads".data ++ '/' :: l) = "uploads".data :: splitSlash l := rfl

/-- Lexical normalisation leaves a component list untouched when no
component is empty, a dot, or a double dot. -/
theorem normFold_plain (cs : List (List Char))
    (h : ∀ c ∈ cs, c ≠ [] ∧ c ≠ ['.'] ∧ c ≠ ['.', '.']) :
    ∀ acc, cs.foldl normStep acc = acc ++ cs := by
  induction cs with
  | nil => intro acc; simp
  | cons c cs ih =>
    intro acc
    obtain ⟨h0, h1, h2⟩ := h c (List.mem_cons_self c cs)
    have hstep : normStep acc c = acc ++ [c] := by
      unfold normStep
      rw [if_neg, if_neg h2]
      simp [h0, h1]
    rw [List.foldl_cons, hstep, ih (fun x hx => h x (List.mem_cons_of_mem c hx))]
    simp

/-- C1 counterexample: the process endpoint joins the client filename
under the upload root with no sanitization, so the filename `../x.jpg`
resolves outside the root yet is still dispatched to the image
pipeline. -/
theorem path_traversal_counterexample :
    (process_file (some trivialModel) (fun _ => true) (fun _ => closedCapture)
        (some ⟨some "../x.jpg", none⟩)).pipelineCalls
      = [PipelineCall.image (osJoin UPLOAD_FOLDER "../x.jpg") (1/2)] ∧
    osJoin UPLOAD_FOLDER "../x.jpg" = "uploads/../x.jpg" ∧
    ¬ withinRoot UPLOAD_FOLDER (osJoin UPLOAD_FOLDER "../x.jpg") :=
  ⟨rfl, rfl, by decide⟩

/-- C1 amended: the resolved path stays within the upload root exactly
when the client filename is free of traversal components — every
slash-separated component nonempty and neither a dot nor a double dot. -/
theorem resolved_path_within_root (filename : String)
    (h : ∀ c ∈ splitSlash filename.data, c ≠ [] ∧ c ≠ ['.'] ∧ c ≠ ['.', '.']) :
    withinRoot UPLOAD_FOLDER (osJoin UPLOAD_FOLDER filename) := by
  have hAbs : isAbs filename = false := by
    unfold isAbs
    split
    · rename_i heq
      exfalso
      have hmem : ([] : List Char) ∈ splitSlash filename.data := by
        rw [heq]
        exact List.mem_cons_self _ _
      exact (h [] hmem).1 rfl
    · rfl
  have hjoin : (osJoin UPLOAD_FOLDER filename).data =
      "uploads".data ++ '/' :: filename.data := by
    unfold osJoin UPLOAD_FOLDER
    rw [hAbs]
    rw [if_neg (by decide), if_neg (by decide), if_neg (by decide)]
  unfold withinRoot
  rw [hjoin, splitSlash_append_root]
  unfold normalizeComponents
  rw [List.foldl_cons]
  have hstep : normStep [] ("uploads".data) = ["uploads".data] := by decide
  rw [hstep, normFold_plain _ h ["uploads".data]]
  rfl

/-- Witness for the amended C1 at the plain filename `x.jpg`. -/
theorem resolved_path_within_root_witness :
    (∀ c ∈ splitSlash "x.jpg".data, c ≠ [] ∧ c ≠ ['.'] ∧ c ≠ ['.', '.']) ∧
    withinRoot UPLOAD_FOLDER (osJoin UPLOAD_FOLDER "x.jpg") :=
  ⟨by decide, resolved_path_within_root "x.jpg" (by decide)⟩

/-- C2 counterexample: on a stream that failed to open, `process_video`
does not signal any error — it returns a zero-frame success result. -/
theorem video_open_failure_counterexample :
    closedCapture.opened = false ∧
    process_video (some trivialModel) "uploads/v.mp4" closedCapture (1/2)
      = (Except.ok ⟨"v_detected.mp4", 0, 0, 0⟩, 0) :=
  ⟨rfl, rfl⟩

/-- C2 amended: when the stream cannot be opened, no frame is processed
and the result is a success value with zero frames, zero detections and
zero average — not an IOError. -/
theorem video_open_failure_empty_success (m : Model) (fp : String)
    (cap : Capture) (t : ℚ) (h : cap.opened = false) :
    process_video (some m) fp cap t =
      (Except.ok ⟨processedName fp, 0, 0, 0⟩, 0) := by
  simp [process_video, h]

/-- Witness for the amended C2 on a concrete closed capture. -/
theorem video_open_failure_empty_success_witness :
    closedCapture.opened = false ∧
    process_video (some trivialModel) "uploads/v.mp4" closedCapture (1/2)
      = (Except.ok ⟨processedName "uploads/v.mp4", 0, 0, 0⟩, 0) :=
  ⟨rfl,
    video_open_failure_empty_success trivialModel "uploads/v.mp4" closedCapture
      (1/2) rfl⟩

end AlertX
